import Mathlib

/-!
Verification development for the cfupdater dynamic-DNS updater, a shallow
embedding of src/src/cfupdater/cfdns.py (the CloudflareDNS client) and
src/src/cfupdater/cfupdater.py (the update workflow `main` and the scheduler
`run` / `get_interval_seconds`).

External effects are modelled as explicit inputs. Every HTTP interaction is
an `Option` of a parsed response: `none` stands for an exception raised by
the transport or by JSON parsing, which the Python code catches with a
broad `except` and turns into its fallback return value. DNS resolution is
an `Option String`, where `none` stands for a `socket.gaierror`. Machine
integers do not overflow in any modelled path, so counts are `Nat` and the
run budget is `Int` (Python integers are unbounded).
-/

namespace Cfupdater

/-- Python truthiness of an optional string: `None` and `""` are falsy,
every other string is truthy (used by `if not ip_address`, `if record_id`,
`if not mode`). -/
def strTruthy : Option String → Bool
  | none => false
  | some s => s != ""

/-- One DNS record object of the provider JSON; a missing key reads as
`none` (Python `dict.get`). The field `rtype` stands for the JSON key
`"type"` (a Lean keyword). -/
structure DNSRecord where
  id : Option String
  rtype : Option String
  name : Option String
  deriving DecidableEq, Repr

/-- One entry of the `errors` array of the provider JSON envelope. -/
structure ErrObj where
  message : Option String
  deriving DecidableEq, Repr

/-- A parsed provider JSON envelope together with the HTTP status code.
`success` is the truthiness of `result.get("success")`; `result` is the
`"result"` key (`none` when absent, the code then defaults to `[]`);
`errors` is the `"errors"` key (`none` when absent, the code then defaults
to a one-element list carrying `"Unknown error"`). -/
structure ApiResponse where
  status : Nat
  success : Bool
  result : Option (List DNSRecord)
  errors : Option (List ErrObj)
  deriving DecidableEq, Repr

/-- The parsed body of the IP-metadata endpoint plus its HTTP status:
`clientIp` is `data.get("clientIp")`. -/
structure IPResp where
  status : Nat
  clientIp : Option String
  deriving DecidableEq, Repr

/-- The JSON payload submitted by `update_dns_record`; `rtype` stands for
the JSON key `"type"`. -/
structure Payload where
  rtype : String
  name : String
  content : String
  ttl : Nat
  proxied : Bool
  deriving DecidableEq, Repr

/-- An HTTP request issued against the DNS provider API. -/
structure Request where
  method : String
  url : String
  payload : Payload
  deriving DecidableEq, Repr

/-- The external world one workflow cycle can observe: the response of each
endpoint (`none` = the call or its JSON parsing raised an exception) and
the DNS resolution of the record name (`none` = `socket.gaierror`). -/
structure Env where
  ipResp : Option IPResp
  lookupResp : Option ApiResponse
  updateResp : Option ApiResponse
  createResp : Option ApiResponse
  resolution : Option String
  deriving DecidableEq, Repr

/-- A call issued by the workflow, recorded in order. -/
inductive Call where
  | discover
  | lookup
  | upsert (req : Request)
  | verifyCall (expected_ip : String)
  deriving DecidableEq, Repr

/-- The outcome of one workflow cycle: the calls issued, the terminal
boolean (the `success` variable of `main`: discovery and upsert both
succeeded), and the result of `verify_dns_update` when it ran. -/
structure CycleResult where
  calls : List Call
  success : Bool
  verified : Option Bool
  deriving DecidableEq, Repr

/-- CloudflareDNS.get_my_ip: on HTTP 200 return `data.get("clientIp")`,
on any other status log and return `None`; any exception is caught and
yields `None`. -/
def get_my_ip : Option IPResp → Option String
  | none => none
  | some r => if r.status = 200 then r.clientIp else none

/-- Base DNS-records URL of a zone, as interpolated in the source. -/
def recordsUrl (zone_id : String) : String :=
  "https://api.cloudflare.com/client/v4/zones/" ++ zone_id ++ "/dns_records"

/-- URL of one DNS record, as interpolated in the source. -/
def recordUrl (zone_id record_id : String) : String :=
  recordsUrl zone_id ++ "/" ++ record_id

/-- The test of the record-scanning loop of `find_dns_record_id`:
`record.get("type") == "A" and record.get("name") == self.record_name`. -/
def isAMatch (record_name : String) (rec : DNSRecord) : Bool :=
  rec.rtype == some "A" && rec.name == some record_name

/-- CloudflareDNS.find_dns_record_id: on HTTP 200 with a successful
envelope, scan `result.get("result", [])` and return the `id` of the first
record matching `isAMatch`; return `None` when the list is empty or no
record matches; on a non-200 status, an unsuccessful envelope, or an
exception, log and return `None`. -/
def find_dns_record_id (record_name : String) : Option ApiResponse → Option String
  | none => none
  | some r =>
    if r.status = 200 && r.success then
      let records := r.result.getD []
      if records.isEmpty then none
      else
        match records.find? (isAMatch record_name) with
        | some rec => rec.id
        | none => none
    else none

/-- True exactly when `find_dns_record_id` takes one of its failure
branches instead of scanning records: the request or parsing raised, or the
status is not 200, or the envelope does not report success (the branches
that log an error in the source). -/
def lookupFailed : Option ApiResponse → Bool
  | none => true
  | some r => !(r.status = 200 && r.success)

/-- The success condition shared by both branches of `update_dns_record`:
HTTP 200 and a provider-reported success; `none` (an exception) is `false`
via the exception handler. -/
def respOk : Option ApiResponse → Bool
  | none => false
  | some r => r.status = 200 && r.success

/-- The fixed `data` dictionary built at the top of `update_dns_record`. -/
def mkPayload (record_name ip_address : String) : Payload :=
  ⟨"A", record_name, ip_address, 1, false⟩

/-- CloudflareDNS.update_dns_record: a truthy record id selects a PUT on
the record URL answered by `env.updateResp`, otherwise a POST on the zone
URL answered by `env.createResp`; both submit the same payload. Returns
the request issued and the boolean result of the call. -/
def update_dns_record (zone_id record_name : String) (env : Env)
    (ip_address : String) (record_id : Option String) : Request × Bool :=
  let data := mkPayload record_name ip_address
  if strTruthy record_id then
    (⟨"PUT", recordUrl zone_id (record_id.getD ""), data⟩, respOk env.updateResp)
  else
    (⟨"POST", recordsUrl zone_id, data⟩, respOk env.createResp)

/-- The message logged by the failure branch of `update_dns_record` and of
`find_dns_record_id`: `result.get("errors", [default])[0].get("message")`.
The outer `none` marks the case `errors == []`, where the subscript raises
an IndexError (caught by the handler, the return value unchanged). -/
def firstErrorMessage (r : ApiResponse) : Option (Option String) :=
  match r.errors with
  | none => some (some "Unknown error")
  | some [] => none
  | some (e :: _) => some e.message

/-- CloudflareDNS.verify_dns_update: resolve the record name and compare
with the expected ip; a `socket.gaierror` (`none`) yields `false`. -/
def verify_dns_update (resolution : Option String) (expected_ip : String) : Bool :=
  match resolution with
  | none => false
  | some resolved => resolved == expected_ip

/-- cfupdater.main, one workflow cycle: a falsy discovered ip returns
immediately; a truthy record id selects update mode, a falsy one create
mode; verification runs only when the upsert reported success and its
result is dropped. -/
def mainCycle (zone_id record_name : String) (env : Env) : CycleResult :=
  let ipOpt := get_my_ip env.ipResp
  if strTruthy ipOpt then
    let ip := ipOpt.getD ""
    let record_id := find_dns_record_id record_name env.lookupResp
    let step :=
      if strTruthy record_id then
        update_dns_record zone_id record_name env ip record_id
      else
        update_dns_record zone_id record_name env ip none
    if step.2 then
      ⟨[.discover, .lookup, .upsert step.1, .verifyCall ip], true,
        some (verify_dns_update env.resolution ip)⟩
    else
      ⟨[.discover, .lookup, .upsert step.1], false, none⟩
  else
    ⟨[.discover], false, none⟩

/-- cfupdater.get_interval_seconds: a dictionary lookup with default 0.
The keys of the source dictionary are "daily", "hourly" and "min". -/
def get_interval_seconds (mode : String) : Nat :=
  if mode = "daily" then 24 * 60 * 60
  else if mode = "hourly" then 60 * 60
  else if mode = "min" then 60
  else 0

/-- Number of workflow invocations performed by the scheduling loop of
`run` within the first `fuel` scheduled slots, from a given `runs_left`.
Mirrors `schedule_next` (stop before a run when `num_runs != 0 and
runs_left <= 0`) and `run_and_reschedule` (run `main`, then when
`num_runs == 0 or runs_left > 0` decrement `runs_left` and schedule the
next slot). -/
def loopRuns (num_runs : Int) : Nat → Int → Nat
  | 0, _ => 0
  | fuel + 1, runs_left =>
    if num_runs ≠ 0 ∧ runs_left ≤ 0 then 0
    else if num_runs = 0 ∨ 0 < runs_left then
      1 + loopRuns num_runs fuel (runs_left - 1)
    else 1

/-- Total number of `main` invocations performed by `run` within the first
`fuel` scheduled slots: one synchronous run, then, only under a truthy
mode, the scheduling loop started at `runs_left = num_runs - 1`. -/
def totalRuns (mode : Option String) (num_runs : Int) (fuel : Nat) : Nat :=
  1 + (if strTruthy mode then loopRuns num_runs fuel (num_runs - 1) else 0)

/-- A cycle environment where discovery succeeds and the record lookup is
answered with HTTP 500 carrying a provider error. -/
def envLookup500 : Env :=
  ⟨some ⟨200, some "203.0.113.7"⟩,
   some ⟨500, false, some [], some [⟨some "server error"⟩]⟩,
   some ⟨200, true, some [], none⟩,
   some ⟨200, true, some [], none⟩,
   some "203.0.113.7"⟩

/-- A cycle environment where every external interaction raises. -/
def envNoIp : Env := ⟨none, none, none, none, none⟩

/-- A cycle environment where every endpoint answers successfully. -/
def envAllOk : Env :=
  ⟨some ⟨200, some "198.51.100.4"⟩,
   some ⟨200, true, some [⟨some "recA", some "A", some "host.example.com"⟩], none⟩,
   some ⟨200, true, some [], none⟩,
   some ⟨200, true, some [], none⟩,
   some "198.51.100.4"⟩

/-- A lookup fixture holding several records: a non-A record with the
target name, an A record with another name, then two A records with the
target name. -/
def fixtureRecords : List DNSRecord :=
  [⟨some "id0", some "AAAA", some "host.example.com"⟩,
   ⟨some "idX", some "A", some "other.example.com"⟩,
   ⟨some "id1", some "A", some "host.example.com"⟩,
   ⟨some "id2", some "A", some "host.example.com"⟩]

/-- A successful lookup envelope carrying `fixtureRecords`. -/
def fixtureResp : ApiResponse := ⟨200, true, some fixtureRecords, none⟩

/-- Helper: with a nonzero run budget the loop performs exactly `runs_left`
further runs once the fuel covers them. -/
theorem loopRuns_eq_toNat (num_runs : Int) (hN : num_runs ≠ 0) :
    ∀ (fuel : Nat) (rl : Int), 0 ≤ rl → rl ≤ (fuel : Int) →
      loopRuns num_runs fuel rl = rl.toNat := by
  intro fuel
  induction fuel with
  | zero =>
    intro rl h0 h1
    have : rl = 0 := le_antisymm h1 h0
    subst this
    rfl
  | succ n ih =>
    intro rl h0 h1
    by_cases hrl : rl ≤ 0
    · have : rl = 0 := le_antisymm hrl h0
      subst this
      simp [loopRuns, hN]
    · have hpos : 0 < rl := lt_of_not_le hrl
      have hstop : ¬ (num_runs ≠ 0 ∧ rl ≤ 0) := by
        intro h
        exact hrl h.2
      have hcont : num_runs = 0 ∨ 0 < rl := Or.inr hpos
      rw [loopRuns, if_neg hstop, if_pos hcont,
        ih (rl - 1) (by omega) (by omega)]
      omega

/-- Helper: with run budget 0 the loop never stops: it performs one run per
unit of fuel. -/
theorem loopRuns_of_budget_zero : ∀ (fuel : Nat) (rl : Int),
    loopRuns 0 fuel rl = fuel := by
  intro fuel
  induction fuel with
  | zero => intro rl; rfl
  | succ n ih =>
    intro rl
    have hstop : ¬ ((0 : Int) ≠ 0 ∧ rl ≤ 0) := by
      intro h
      exact h.1 rfl
    rw [loopRuns, if_neg hstop, if_pos (Or.inl rfl), ih]
    omega

/-- Helper: with a nonzero run budget and `runs_left ≤ 0` the loop stops at
once, before any run. -/
theorem loopRuns_stop (num_runs : Int) (hN : num_runs ≠ 0) (fuel : Nat)
    (rl : Int) (hrl : rl ≤ 0) : loopRuns num_runs fuel rl = 0 := by
  cases fuel with
  | zero => rfl
  | succ n => simp [loopRuns, hN, hrl]

/-- C2 counterexample: the interval function maps the mode string
"minutely" to 0 seconds, not to the 60 seconds the claim states, because
the dictionary key in the source is "min". -/
theorem interval_minutely_is_zero_cex :
    get_interval_seconds "minutely" = 0 ∧ get_interval_seconds "minutely" ≠ 60 := by
  decide

/-- C2 amended: the interval function maps "daily" to 86400, "hourly" to
3600 and "min" to 60 seconds, and every other mode string, "minutely"
among them, to a 0-second interval. -/
theorem interval_mapping (m : String)
    (h1 : m ≠ "daily") (h2 : m ≠ "hourly") (h3 : m ≠ "min") :
    get_interval_seconds "daily" = 86400 ∧
    get_interval_seconds "hourly" = 3600 ∧
    get_interval_seconds "min" = 60 ∧
    get_interval_seconds m = 0 := by
  refine ⟨by decide, by decide, by decide, ?_⟩
  simp [get_interval_seconds, h1, h2, h3]

/-- C2 witness: the amended mapping evaluated at the unrecognized mode
"minutely". -/
theorem interval_mapping_witness :
    ("minutely" ≠ "daily" ∧ "minutely" ≠ "hourly" ∧ "minutely" ≠ "min") ∧
    get_interval_seconds "minutely" = 0 :=
  ⟨by decide,
   (interval_mapping "minutely" (by decide) (by decide) (by decide)).2.2.2⟩

/-- C3: scheduler repeat counts. Without a truthy repeat mode `run`
invokes the workflow exactly once; with a truthy mode and a budget
`N > 0` it invokes it exactly `N` times once the observed fuel covers
them; with budget 0 it runs once per unit of fuel, without bound. -/
theorem scheduler_run_counts (mode : Option String) (N : Int) (fuel : Nat) :
    (strTruthy mode = false → totalRuns mode N fuel = 1) ∧
    (strTruthy mode = true → 0 < N → N ≤ (fuel : Int) + 1 →
      totalRuns mode N fuel = N.toNat) ∧
    (strTruthy mode = true → N = 0 → totalRuns mode N fuel = fuel + 1) := by
  refine ⟨?_, ?_, ?_⟩
  · intro h
    simp [totalRuns, h]
  · intro h hpos hle
    rw [totalRuns, if_pos h,
      loopRuns_eq_toNat N (by omega) fuel (N - 1) (by omega) (by omega)]
    omega
  · intro h h0
    subst h0
    rw [totalRuns, if_pos h, loopRuns_of_budget_zero]
    omega

/-- C3 witness: mode "min" with budget 3 yields exactly 3 invocations, and
no mode yields exactly one. -/
theorem scheduler_run_counts_witness :
    (strTruthy (some "min") = true ∧ (0 : Int) < 3 ∧ (3 : Int) ≤ (10 : Nat) + 1 ∧
      totalRuns (some "min") 3 10 = 3) ∧
    (strTruthy none = false ∧ totalRuns none 5 10 = 1) :=
  ⟨⟨by decide, by decide, by decide,
    (scheduler_run_counts (some "min") 3 10).2.1 (by decide) (by decide) (by decide)⟩,
   ⟨rfl, (scheduler_run_counts none 5 10).1 rfl⟩⟩

/-- C10: under a truthy repeat mode with a negative run budget the
workflow is invoked exactly once, the same count as budget 1, because
`runs_left` starts at `num_runs - 1 ≤ 0` and the loop stops before any
further run. -/
theorem negative_budget_runs_once (mode : Option String) (N : Int) (fuel : Nat)
    (hm : strTruthy mode = true) (hN : N < 0) :
    totalRuns mode N fuel = 1 ∧ totalRuns mode N fuel = totalRuns mode 1 fuel := by
  have h1 : totalRuns mode N fuel = 1 := by
    rw [totalRuns, if_pos hm, loopRuns_stop N (by omega) fuel (N - 1) (by omega)]
  have h2 : totalRuns mode 1 fuel = 1 := by
    rw [totalRuns, if_pos hm, loopRuns_stop 1 (by omega) fuel (1 - 1) (by omega)]
  exact ⟨h1, h1.trans h2.symm⟩

/-- C10 witness: mode "daily" with budget -4 yields exactly one
invocation, as does budget 1. -/
theorem negative_budget_runs_once_witness :
    (strTruthy (some "daily") = true ∧ (-4 : Int) < 0) ∧
    totalRuns (some "daily") (-4) 7 = 1 :=
  ⟨⟨by decide, by decide⟩,
   (negative_budget_runs_once (some "daily") (-4) 7 (by decide) (by decide)).1⟩

/-- Helper: every failure branch of the lookup returns `none`, the same
value as a NotFound. -/
theorem find_none_of_lookupFailed (record_name : String)
    (resp : Option ApiResponse) (h : lookupFailed resp = true) :
    find_dns_record_id record_name resp = none := by
  cases resp with
  | none => rfl
  | some r =>
    have h2 : ¬ r.status = 200 ∨ r.success = false := by
      simpa [lookupFailed] using h
    have hc : (decide (r.status = 200) && r.success) = false := by
      rcases h2 with h2 | h2 <;> simp [h2]
    simp [find_dns_record_id, hc]

/-- Helper: the truthiness of the absent string. -/
theorem strTruthy_none : strTruthy none = false := rfl

/-- Helper: `find?` returns the head of the first matching suffix. -/
theorem find_first_of_split {α : Type} (p : α → Bool) :
    ∀ (pre : List α) (rec : α) (post : List α),
      (∀ x ∈ pre, p x = false) → p rec = true →
      (pre ++ rec :: post).find? p = some rec := by
  intro pre
  induction pre with
  | nil =>
    intro rec post _ hp
    simp [List.find?_cons, hp]
  | cons a t ih =>
    intro rec post h hp
    have ha : p a = false := h a (by simp)
    simp only [List.cons_append, List.find?_cons, ha]
    exact ih rec post (fun x hx => h x (by simp [hx])) hp

/-- C4: a falsy discovered ip terminates the cycle at once with failure;
the only call issued is the discovery itself, so neither a lookup nor an
upsert ever happens. -/
theorem discovery_failure_aborts (zone_id record_name : String) (env : Env)
    (h : strTruthy (get_my_ip env.ipResp) = false) :
    mainCycle zone_id record_name env = ⟨[Call.discover], false, none⟩ := by
  simp [mainCycle, h]

/-- C4 witness: a cycle with a raising IP endpoint issues only the
discovery call and fails. -/
theorem discovery_failure_aborts_witness :
    strTruthy (get_my_ip envNoIp.ipResp) = false ∧
    mainCycle "z1" "host.example.com" envNoIp = ⟨[Call.discover], false, none⟩ :=
  ⟨rfl, discovery_failure_aborts "z1" "host.example.com" envNoIp rfl⟩

/-- C1 counterexample: a cycle whose lookup is answered with HTTP 500 (a
lookup failure, not a NotFound) still issues an upsert, in create mode,
and even reports overall success; the claim that no upsert is invoked
after a lookup failure is false of the code. -/
theorem lookup_failure_still_upserts_cex :
    lookupFailed envLookup500.lookupResp = true ∧
    (mainCycle "z1" "host.example.com" envLookup500).calls =
      [Call.discover, Call.lookup,
       Call.upsert ⟨"POST", recordsUrl "z1", mkPayload "host.example.com" "203.0.113.7"⟩,
       Call.verifyCall "203.0.113.7"] ∧
    (mainCycle "z1" "host.example.com" envLookup500).success = true :=
  ⟨rfl, rfl, rfl⟩

/-- C1 amended: the code does not distinguish a failed lookup from a
NotFound: both return `None`, so in every cycle where discovery succeeds
and the lookup fails the workflow proceeds to a create-mode (POST) upsert,
and the cycle outcome is the outcome of that create call. -/
theorem lookup_failure_routes_to_create (zone_id record_name : String)
    (env : Env) (hip : strTruthy (get_my_ip env.ipResp) = true)
    (hlf : lookupFailed env.lookupResp = true) :
    Call.upsert ⟨"POST", recordsUrl zone_id,
        mkPayload record_name ((get_my_ip env.ipResp).getD "")⟩ ∈
      (mainCycle zone_id record_name env).calls ∧
    (mainCycle zone_id record_name env).success = respOk env.createResp := by
  have hfind := find_none_of_lookupFailed record_name env.lookupResp hlf
  cases hok : respOk env.createResp with
  | false => simp [mainCycle, hip, hfind, strTruthy_none, update_dns_record, hok]
  | true => simp [mainCycle, hip, hfind, strTruthy_none, update_dns_record, hok]

/-- C1 witness: the amended statement evaluated on the HTTP-500 lookup
environment. -/
theorem lookup_failure_routes_to_create_witness :
    (strTruthy (get_my_ip envLookup500.ipResp) = true ∧
      lookupFailed envLookup500.lookupResp = true) ∧
    Call.upsert ⟨"POST", recordsUrl "z1",
        mkPayload "host.example.com" ((get_my_ip envLookup500.ipResp).getD "")⟩ ∈
      (mainCycle "z1" "host.example.com" envLookup500).calls :=
  ⟨⟨by decide, by decide⟩,
   (lookup_failure_routes_to_create "z1" "host.example.com" envLookup500
     (by decide) (by decide)).1⟩

/-- C5: verification is advisory. In every cycle, `verify_dns_update` ran
exactly when the cycle reports success (so a failed upsert skips it), and
the terminal boolean does not depend on the resolution outcome, so a
mismatch or a resolution failure never flips the cycle to failure. -/
theorem verification_advisory (zone_id record_name : String)
    (ipResp : Option IPResp) (lk up cr : Option ApiResponse)
    (r1 r2 : Option String) :
    ((mainCycle zone_id record_name ⟨ipResp, lk, up, cr, r1⟩).verified.isSome =
      (mainCycle zone_id record_name ⟨ipResp, lk, up, cr, r1⟩).success) ∧
    ((Call.verifyCall ((get_my_ip ipResp).getD "") ∈
        (mainCycle zone_id record_name ⟨ipResp, lk, up, cr, r1⟩).calls) ↔
      (mainCycle zone_id record_name ⟨ipResp, lk, up, cr, r1⟩).success = true) ∧
    ((mainCycle zone_id record_name ⟨ipResp, lk, up, cr, r1⟩).success =
      (mainCycle zone_id record_name ⟨ipResp, lk, up, cr, r2⟩).success) := by
  cases hip : strTruthy (get_my_ip ipResp) with
  | false => simp [mainCycle, hip]
  | true =>
    cases hrid : strTruthy (find_dns_record_id record_name lk) with
    | false =>
      cases hok : respOk cr with
      | false => simp [mainCycle, hip, hrid, hok, update_dns_record, strTruthy_none]
      | true => simp [mainCycle, hip, hrid, hok, update_dns_record, strTruthy_none]
    | true =>
      cases hok : respOk up with
      | false => simp [mainCycle, hip, hrid, hok, update_dns_record, strTruthy_none]
      | true => simp [mainCycle, hip, hrid, hok, update_dns_record, strTruthy_none]

/-- C6: the create request is a POST on the zone URL and the update
request a PUT on the record URL; both carry the identical fixed payload,
so the two differ only in method and URL. Each returns success exactly
when the HTTP status is 200 and the provider reports success, and a
failure envelope with a nonempty errors array carries the first error
message. -/
theorem upsert_request_shape (zone_id record_name ip : String) (env : Env)
    (rid : String) (hrid : rid ≠ "") :
    update_dns_record zone_id record_name env ip none =
      (⟨"POST", recordsUrl zone_id, mkPayload record_name ip⟩,
        respOk env.createResp) ∧
    update_dns_record zone_id record_name env ip (some rid) =
      (⟨"PUT", recordUrl zone_id rid, mkPayload record_name ip⟩,
        respOk env.updateResp) ∧
    mkPayload record_name ip = ⟨"A", record_name, ip, 1, false⟩ ∧
    (∀ r : ApiResponse, respOk (some r) = (decide (r.status = 200) && r.success)) ∧
    (∀ (e : ErrObj) (es : List ErrObj) (st : Nat) (su : Bool)
        (res : Option (List DNSRecord)),
      firstErrorMessage ⟨st, su, res, some (e :: es)⟩ = some e.message) := by
  have ht : strTruthy (some rid) = true := by simp [strTruthy, hrid]
  refine ⟨rfl, ?_, rfl, fun r => rfl, fun e es st su res => rfl⟩
  simp [update_dns_record, ht]

/-- C6 witness: the update request for a concrete nonempty record id. -/
theorem upsert_request_shape_witness :
    ("rec9" ≠ "") ∧
    update_dns_record "z1" "host.example.com" envAllOk "198.51.100.4" (some "rec9") =
      (⟨"PUT", recordUrl "z1" "rec9", mkPayload "host.example.com" "198.51.100.4"⟩,
        respOk envAllOk.updateResp) :=
  ⟨by decide,
   (upsert_request_shape "z1" "host.example.com" "198.51.100.4" envAllOk "rec9"
     (by decide)).2.1⟩

/-- C7: on a successful lookup envelope the function returns `None` when
the record list is empty and when no record is an A-type exact-name match,
and when the list splits as a matchless prefix, a matching record and an
arbitrary rest, it returns exactly the id of that first match, ignoring
the rest. -/
theorem find_record_selection (record_name : String) (r : ApiResponse)
    (hst : r.status = 200) (hsu : r.success = true) :
    (r.result.getD [] = [] → find_dns_record_id record_name (some r) = none) ∧
    ((∀ x ∈ r.result.getD [], isAMatch record_name x = false) →
      find_dns_record_id record_name (some r) = none) ∧
    (∀ (pre post : List DNSRecord) (rec : DNSRecord),
      r.result.getD [] = pre ++ rec :: post →
      (∀ x ∈ pre, isAMatch record_name x = false) →
      isAMatch record_name rec = true →
      find_dns_record_id record_name (some r) = rec.id) := by
  have hc : (decide (r.status = 200) && r.success) = true := by
    simp [hst, hsu]
  refine ⟨?_, ?_, ?_⟩
  · intro h
    simp [find_dns_record_id, hc, h]
  · intro h
    have hn : (r.result.getD []).find? (isAMatch record_name) = none :=
      List.find?_eq_none.mpr (fun x hx => by simp [h x hx])
    cases he : (r.result.getD []).isEmpty with
    | true => simp [find_dns_record_id, hc, he]
    | false => simp [find_dns_record_id, hc, he, hn]
  · intro pre post rec hsplit hpre hrec
    have hfind : (r.result.getD []).find? (isAMatch record_name) = some rec := by
      rw [hsplit]
      exact find_first_of_split (isAMatch record_name) pre rec post hpre hrec
    have hne : (r.result.getD []).isEmpty = false := by
      rw [hsplit]
      cases pre <;> simp
    simp [find_dns_record_id, hc, hne, hfind]

/-- C7 witness: on the four-record fixture, whose first A-type exact-name
match is the third record, the lookup returns the id "id1" and ignores the
later duplicate. -/
theorem find_record_selection_witness :
    (fixtureResp.status = 200 ∧ fixtureResp.success = true) ∧
    find_dns_record_id "host.example.com" (some fixtureResp) = some "id1" :=
  ⟨⟨rfl, rfl⟩,
   (find_record_selection "host.example.com" fixtureResp rfl rfl).2.2
     [⟨some "id0", some "AAAA", some "host.example.com"⟩,
      ⟨some "idX", some "A", some "other.example.com"⟩]
     [⟨some "id2", some "A", some "host.example.com"⟩]
     ⟨some "id1", some "A", some "host.example.com"⟩
     (by decide) (by decide) (by decide)⟩

/-- C8: exceptional external behavior is converted at the client boundary
into typed fallback values, never re-raised: a raising IP endpoint yields
`None`, a raising lookup yields `None`, a raising upsert yields `False`
whatever the record id, a resolution error yields `False`, and a cycle in
which every interaction raises still returns the ordinary failure outcome
to the scheduler. -/
theorem exceptions_become_typed_outcomes (zone_id record_name ip expected : String)
    (rid : Option String) (env : Env) :
    get_my_ip none = none ∧
    find_dns_record_id record_name none = none ∧
    (update_dns_record zone_id record_name
      ⟨env.ipResp, env.lookupResp, none, none, env.resolution⟩ ip rid).2 = false ∧
    verify_dns_update none expected = false ∧
    mainCycle zone_id record_name ⟨none, none, none, none, none⟩ =
      ⟨[Call.discover], false, none⟩ := by
  refine ⟨rfl, rfl, ?_, rfl, rfl⟩
  simp only [update_dns_record]
  split <;> rfl

/-- C9: a record id that is the empty string is falsy, so the upsert takes
the create branch: the request is identical to the one issued with no
record id at all, a POST on the zone URL rather than a PUT on a
record-specific URL. -/
theorem empty_record_id_creates (zone_id record_name ip : String) (env : Env) :
    update_dns_record zone_id record_name env ip (some "") =
      update_dns_record zone_id record_name env ip none ∧
    (update_dns_record zone_id record_name env ip (some "")).1.method = "POST" ∧
    (update_dns_record zone_id record_name env ip (some "")).1.url = recordsUrl zone_id :=
  ⟨rfl, rfl, rfl⟩

end Cfupdater
